import Mathlib

/-!
Verification of the GoGoGate2 garage-door client (`gogogate2.py`).

The client screen-scrapes the device's PHP web UI.  Every public operation
(`getStatus`, `getTemp`, `toggleDoor`) follows the same shape: attempt the
underlying action; when it fails, call `_login` once and, only when that
login succeeded, run the action once more.

The embedding below is a shallow model of that module.  The HTTP transport
(the `requests` library and the device behind it) is modelled as a test
double `Transport` that supplies the `HttpResponse` each request of an
operation will receive; the JSON decoder of the standard library is
modelled by a field `jsonOf` of the response, holding the decode result of
the body (`none` when `json.loads` would raise).  Python floats are
modelled by exact rationals; the arithmetic the claims exercise
(milli-degree Celsius to Fahrenheit at the values 0 and 100000 and the
`-1000000` sentinel) is exact in both.  A Python exception escaping a
method is modelled as an `Option.none` result of the embedded function.
-/

set_option autoImplicit false

/-- Result of `json.loads`: the JSON value decoded from a response body.
Python decodes JSON `null` to `None`, numbers to `int`/`float` (modelled
as `ℚ`), strings to `str`, arrays to `list`, objects to `dict`. -/
inductive Json where
  | null : Json
  | bool (b : Bool) : Json
  | num (q : ℚ) : Json
  | str (s : String) : Json
  | arr (elems : List Json) : Json
  | obj (fields : List (String × Json)) : Json

/-- Python `v == "<literal>"` for a decoded JSON value `v`: true exactly
when `v` is the equal string (a number never equals a string in Python). -/
def Json.eqStr : Json → String → Bool
  | Json.str s, t => s == t
  | _, _ => false

/-- Python `v[0]` on a decoded JSON value, `none` when it raises:
`list[0]` yields the head (IndexError on empty), `str[0]` yields the
first character as a one-character string, and indexing `None`, booleans,
numbers or a dict with the key `0` raises. -/
def Json.item0 : Json → Option Json
  | Json.arr (x :: _) => some x
  | Json.str s => (s.data.head?).map (fun c => Json.str (String.mk [c]))
  | _ => none

/-- Digit-string value: `some n` when the characters are one or more
decimal digits. -/
def parseNatDigits (cs : List Char) : Option Nat :=
  if cs ≠ [] ∧ cs.all Char.isDigit then
    some (cs.foldl (fun a c => 10 * a + (c.toNat - 48)) 0)
  else none

/-- Split a character list at the dots, keeping empty pieces. -/
def splitDots : List Char → List Char → List (List Char)
  | acc, [] => [acc.reverse]
  | acc, c :: cs =>
    if c == '.' then acc.reverse :: splitDots [] cs else splitDots (c :: acc) cs

/-- Value of an unsigned decimal numeral: digits with at most one
fractional part. -/
def parseUnsigned (cs : List Char) : Option ℚ :=
  match splitDots [] cs with
  | [ip] => (parseNatDigits ip).map (fun n => (n : ℚ))
  | [ip, fp] =>
    match parseNatDigits ip, parseNatDigits fp with
    | some n, some f => some ((n : ℚ) + (f : ℚ) / ((10 : ℚ) ^ fp.length))
    | _, _ => none
  | _ => none

/-- Python `float(s)` on a string, restricted to the plain decimal
numerals the device emits: optional sign, digits, optional fractional
part.  `none` models the ValueError Python raises on anything else. -/
def parseDecimal (s : String) : Option ℚ :=
  match s.data with
  | '-' :: rest => (parseUnsigned rest).map (fun q => -q)
  | '+' :: rest => parseUnsigned rest
  | cs => parseUnsigned cs

/-- Python `float(v)` on a decoded JSON value: numbers pass through,
booleans become 0/1, strings are parsed, and `float` of `None`, a list
or a dict raises (`none`). -/
def pyFloat : Json → Option ℚ
  | Json.num q => some q
  | Json.bool b => some (if b then 1 else 0)
  | Json.str s => parseDecimal s
  | _ => none

/-- One HTTP response as the client observes it: status code, body text,
the JSON decode of the body (`none` when `json.loads(text)` raises), and
the response cookies. -/
structure HttpResponse where
  status_code : Nat
  text : String
  jsonOf : Option Json
  cookies : List (String × String)

/-- Cookie-jar lookup `r.cookies[k]`, `none` when the key is absent
(where Python raises a KeyError). -/
def lookupCookie (cookies : List (String × String)) (k : String) : Option String :=
  (cookies.find? (fun p => p.1 == k)).map (fun p => p.2)

/-- Does `pat` match at the front of `cs`? -/
def matchesAt : List Char → List Char → Bool
  | [], _ => true
  | _ :: _, [] => false
  | p :: ps, c :: cs => p == c && matchesAt ps cs

/-- Python `pat in text` substring test, on character lists. -/
def occursIn (pat : List Char) : List Char → Bool
  | [] => matchesAt pat []
  | c :: cs => matchesAt pat (c :: cs) || occursIn pat cs

/-- The logout-button markup whose presence in the login response body is
the success signal of `_login`. -/
def logoutFragment : String :=
  "<input type=\"submit\" class=\"btn-logout3\" name=\"logout\" value=\" \" title=\"Logout\"/>"

/-- The client object: connection parameters and the mutable
`session_id` (the `PHPSESSID` token), `none` until a successful login. -/
structure GoGoGate2 where
  ip : String
  username : String
  password : String
  session_id : Option String

/-- `GoGoGate2.__init__`: stores the parameters; `session_id` starts
unset. -/
def GoGoGate2.mkClient (ip username password : String) : GoGoGate2 :=
  { ip := ip, username := username, password := password, session_id := none }

/-- Transport test double: the responses the device returns during one
public operation.  `_login` is called at most once per operation, so one
login response suffices; the action endpoints are indexed by the attempt
number (0 = first attempt, 1 = the retry after login) and, for the
per-door endpoints, by the door number. -/
structure Transport where
  loginResp : HttpResponse
  statusResp : Nat → HttpResponse
  tempResp : Nat → Nat → HttpResponse
  toggleResp : Nat → Nat → HttpResponse

/-- Observable calls an operation makes, for stating the retry policy. -/
inductive Event where
  | login : Event
  | statusAttempt : Event
  | tempAttempt : Event
  | toggleAttempt (door : Nat) : Event
deriving DecidableEq

/-- Number of `_login` calls in a trace. -/
def loginCount : List Event → Nat
  | [] => 0
  | Event.login :: tr => loginCount tr + 1
  | _ :: tr => loginCount tr

/-- Number of underlying-action attempts (`_doGetStatus`, `_doGetTemp`
or `_doToggleDoor` invocations) in a trace. -/
def attemptCount : List Event → Nat
  | [] => 0
  | Event.login :: tr => attemptCount tr
  | _ :: tr => attemptCount tr + 1

/-- `GoGoGate2._login` applied to the response `r` of the login POST:
on HTTP 200 with the logout fragment in the body it stores the
`PHPSESSID` cookie and returns `true`; otherwise it returns `false`
leaving the client unchanged.  `none` models the KeyError raised when
the success condition holds but the cookie is absent. -/
def GoGoGate2.login (g : GoGoGate2) (r : HttpResponse) : Option (Bool × GoGoGate2) :=
  if r.status_code = 200 ∧ occursIn logoutFragment.data r.text.data = true then
    match lookupCookie r.cookies "PHPSESSID" with
    | some sid => some (true, { g with session_id := some sid })
    | none => none
  else
    some (false, g)

/-- `GoGoGate2._doGetStatus` applied to the response of the status GET:
on HTTP 200 with a non-empty body it returns `json.loads(text)`; a parse
failure is caught and yields `None`, as do a non-200 status and an empty
body.  JSON `null` decodes to Python `None`, so it also collapses to
`none` here. -/
def GoGoGate2.doGetStatus (r : HttpResponse) : Option Json :=
  if r.status_code = 200 ∧ 0 < r.text.length then
    match r.jsonOf with
    | some Json.null => none
    | some j => some j
    | none => none
  else none

/-- One iteration of the `_doGetTemp` loop body on the response for one
door.  `none` models the exception path (the `except` clause returns
`None` from `_doGetTemp`): the body was 200 and non-empty but failed to
decode, or indexing/`float` conversion raised.  `some none` means the
iteration appended nothing (non-200 status, empty body, or JSON `null`).
`some (some t)` appends the Fahrenheit value `t`: `0` for the
`"-1000000"` no-sensor sentinel, else `9/5 * (raw/1000) + 32`. -/
def GoGoGate2.tempStep (r : HttpResponse) : Option (Option ℚ) :=
  if r.status_code = 200 ∧ 0 < r.text.length then
    match r.jsonOf with
    | none => none
    | some Json.null => some none
    | some results =>
      match Json.item0 results with
      | none => none
      | some v =>
        if v.eqStr "-1000000" then some (some 0)
        else
          match pyFloat v with
          | none => none
          | some q => some (some ((9 : ℚ) / 5 * (q / 1000) + 32))
  else some none

/-- `GoGoGate2._doGetTemp`: the `for door_num in range(1, 4)` loop
unrolled over the per-door responses `resp 1`, `resp 2`, `resp 3`,
accumulating `returnResults`; the first exception aborts with `None`
(so later doors are not fetched), otherwise the appended values are
returned — possibly fewer than three. -/
def GoGoGate2.doGetTemp (resp : Nat → HttpResponse) : Option (List ℚ) :=
  match GoGoGate2.tempStep (resp 1) with
  | none => none
  | some o1 =>
    match GoGoGate2.tempStep (resp 2) with
    | none => none
    | some o2 =>
      match GoGoGate2.tempStep (resp 3) with
      | none => none
      | some o3 => some (o1.toList ++ o2.toList ++ o3.toList)

/-- `GoGoGate2._doToggleDoor` applied to the response of the toggle GET:
`true` exactly on HTTP 200 with body literally `OK`. -/
def GoGoGate2.doToggleDoor (r : HttpResponse) : Bool :=
  r.status_code == 200 && r.text == "OK"

/-- `GoGoGate2.getStatus`: attempt `_doGetStatus`; if the result is
`None`, `_login`, and only when that login returned `True` run
`_doGetStatus` once more; otherwise return the first result.  The outer
`Option` is `none` when `_login` raised; the trace lists the calls
made. -/
def GoGoGate2.getStatus (env : Transport) (g : GoGoGate2) :
    Option (Option Json × GoGoGate2) × List Event :=
  match GoGoGate2.doGetStatus (env.statusResp 0) with
  | some j => (some (some j, g), [Event.statusAttempt])
  | none =>
    match g.login env.loginResp with
    | none => (none, [Event.statusAttempt, Event.login])
    | some (true, g') =>
      (some (GoGoGate2.doGetStatus (env.statusResp 1), g'),
        [Event.statusAttempt, Event.login, Event.statusAttempt])
    | some (false, g') => (some (none, g'), [Event.statusAttempt, Event.login])

/-- `GoGoGate2.getTemp`: same retry shape as `getStatus` around
`_doGetTemp`. -/
def GoGoGate2.getTemp (env : Transport) (g : GoGoGate2) :
    Option (Option (List ℚ) × GoGoGate2) × List Event :=
  match GoGoGate2.doGetTemp (env.tempResp 0) with
  | some l => (some (some l, g), [Event.tempAttempt])
  | none =>
    match g.login env.loginResp with
    | none => (none, [Event.tempAttempt, Event.login])
    | some (true, g') =>
      (some (GoGoGate2.doGetTemp (env.tempResp 1), g'),
        [Event.tempAttempt, Event.login, Event.tempAttempt])
    | some (false, g') => (some (none, g'), [Event.tempAttempt, Event.login])

/-- `GoGoGate2.toggleDoor`: attempt `_doToggleDoor`; if it returned
`False`, `_login`, and only when that login returned `True` run
`_doToggleDoor` once more; otherwise return the first result. -/
def GoGoGate2.toggleDoor (env : Transport) (g : GoGoGate2) (door_num : Nat) :
    Option (Bool × GoGoGate2) × List Event :=
  match GoGoGate2.doToggleDoor (env.toggleResp 0 door_num) with
  | true => (some (true, g), [Event.toggleAttempt door_num])
  | false =>
    match g.login env.loginResp with
    | none => (none, [Event.toggleAttempt door_num, Event.login])
    | some (true, g') =>
      (some (GoGoGate2.doToggleDoor (env.toggleResp 1 door_num), g'),
        [Event.toggleAttempt door_num, Event.login, Event.toggleAttempt door_num])
    | some (false, g') =>
      (some (false, g'), [Event.toggleAttempt door_num, Event.login])

/-- A client as constructed by the module's usage example. -/
def g0 : GoGoGate2 := GoGoGate2.mkClient "192.168.1.123" "admin" "my_password"

/-- A response representing transport failure: non-200, empty body. -/
def noResp : HttpResponse :=
  { status_code := 500, text := "", jsonOf := none, cookies := [] }

/-- Transport on which every request fails. -/
def envA : Transport :=
  { loginResp := noResp
    statusResp := fun _ => noResp
    tempResp := fun _ _ => noResp
    toggleResp := fun _ _ => noResp }

/-- A well-formed per-door temperature response: 5000 milli-degrees
Celsius, i.e. 5 °C = 41 °F. -/
def tempGood : HttpResponse :=
  { status_code := 200
    text := "[\"5000\",\"60\"]"
    jsonOf := some (Json.arr [Json.str "5000", Json.str "60"])
    cookies := [] }

/-- Transport whose door-1 temperature request fails at the transport
level while doors 2 and 3 answer well-formed payloads. -/
def envB : Transport :=
  { loginResp := noResp
    statusResp := fun _ => noResp
    tempResp := fun _ d => if d == 1 then noResp else tempGood
    toggleResp := fun _ _ => noResp }

/-- Transport whose toggle endpoint answers HTTP 200 with body `FAIL`
and whose login fails. -/
def envC : Transport :=
  { loginResp := noResp
    statusResp := fun _ => noResp
    tempResp := fun _ _ => noResp
    toggleResp := fun _ _ =>
      { status_code := 200, text := "FAIL", jsonOf := none, cookies := [] } }

/-- A per-door temperature response carrying the no-sensor sentinel. -/
def sentinelResp : HttpResponse :=
  { status_code := 200
    text := "[\"-1000000\",\"0\"]"
    jsonOf := some (Json.arr [Json.str "-1000000", Json.str "0"])
    cookies := [] }

/-- A 200 response whose non-empty body is not valid JSON. -/
def badJsonResp : HttpResponse :=
  { status_code := 200, text := "garbage", jsonOf := none, cookies := [] }

/-- Transport whose temperature endpoint answers 200 with an
unparseable body. -/
def envD : Transport :=
  { loginResp := noResp
    statusResp := fun _ => noResp
    tempResp := fun _ _ => badJsonResp
    toggleResp := fun _ _ => noResp }

/-- A 200 response whose body decodes to the empty JSON array, on which
the element access `results[0]` raises IndexError. -/
def emptyArrResp : HttpResponse :=
  { status_code := 200, text := "[]", jsonOf := some (Json.arr []), cookies := [] }

/-- Transport whose temperature endpoint answers 200 with an empty
JSON array body. -/
def envE : Transport :=
  { loginResp := noResp
    statusResp := fun _ => noResp
    tempResp := fun _ _ => emptyArrResp
    toggleResp := fun _ _ => noResp }

/-- A well-formed door-status response, as in the module's usage
example. -/
def statusOK : HttpResponse :=
  { status_code := 200
    text := "[\"0\",\"2\",\"0\"]"
    jsonOf := some (Json.arr [Json.str "0", Json.str "2", Json.str "0"])
    cookies := [] }

/-- Transport on which every first attempt succeeds. -/
def envOK : Transport :=
  { loginResp := noResp
    statusResp := fun _ => statusOK
    tempResp := fun _ _ => tempGood
    toggleResp := fun _ _ =>
      { status_code := 200, text := "OK", jsonOf := none, cookies := [] } }

/-- A login response that satisfies the success test (HTTP 200, logout
fragment present) but carries no cookies at all. -/
def fragNoCookieResp : HttpResponse :=
  { status_code := 200, text := logoutFragment, jsonOf := none, cookies := [] }

/-- `_login` returns `False` only on the failure branch, which leaves
the client untouched. -/
theorem login_false_unchanged (g g' : GoGoGate2) (r : HttpResponse)
    (h : g.login r = some (false, g')) : g' = g := by
  unfold GoGoGate2.login at h
  by_cases hc : r.status_code = 200 ∧ occursIn logoutFragment.data r.text.data = true
  · rw [if_pos hc] at h
    cases hk : lookupCookie r.cookies "PHPSESSID" <;> rw [hk] at h
    · exact Option.noConfusion h
    · cases h
  · rw [if_neg hc] at h
    cases h
    rfl

/-- `_doGetTemp` appends at most one value per door, so a present result
has at most three entries. -/
theorem doGetTemp_length_le (resp : Nat → HttpResponse) (l : List ℚ)
    (h : GoGoGate2.doGetTemp resp = some l) : l.length ≤ 3 := by
  unfold GoGoGate2.doGetTemp at h
  cases h1 : GoGoGate2.tempStep (resp 1) with
  | none => rw [h1] at h; cases h
  | some o1 =>
    rw [h1] at h
    cases h2 : GoGoGate2.tempStep (resp 2) with
    | none => rw [h2] at h; cases h
    | some o2 =>
      rw [h2] at h
      cases h3 : GoGoGate2.tempStep (resp 3) with
      | none => rw [h3] at h; cases h
      | some o3 =>
        rw [h3] at h
        cases h
        cases o1 <;> cases o2 <;> cases o3 <;> simp

/-- An exception in any loop iteration makes `_doGetTemp` return `None`:
the doors before `d` either aborted already or stepped normally, and in
the latter case door `d`'s exception aborts. -/
theorem tempStep_none_aborts (resp : Nat → HttpResponse) (d : Nat)
    (hd : d = 1 ∨ d = 2 ∨ d = 3)
    (hstep : GoGoGate2.tempStep (resp d) = none) :
    GoGoGate2.doGetTemp resp = none := by
  rcases hd with rfl | rfl | rfl
  · simp [GoGoGate2.doGetTemp, hstep]
  · cases h1 : GoGoGate2.tempStep (resp 1) with
    | none => simp [GoGoGate2.doGetTemp, h1]
    | some o1 => simp [GoGoGate2.doGetTemp, h1, hstep]
  · cases h1 : GoGoGate2.tempStep (resp 1) with
    | none => simp [GoGoGate2.doGetTemp, h1]
    | some o1 =>
      cases h2 : GoGoGate2.tempStep (resp 2) with
      | none => simp [GoGoGate2.doGetTemp, h1, h2]
      | some o2 => simp [GoGoGate2.doGetTemp, h1, h2, hstep]

/-- C7: for each of the three public operations, if the underlying
action succeeds on the first attempt (non-absent result for
`getStatus`/`getTemp`, `True` for `toggleDoor`), `_login` is never
invoked during that operation and the first attempt's result is
returned unchanged. -/
theorem C7_success_skips_login :
    (∀ (env : Transport) (g : GoGoGate2) (j : Json),
      GoGoGate2.doGetStatus (env.statusResp 0) = some j →
      GoGoGate2.getStatus env g = (some (some j, g), [Event.statusAttempt]) ∧
      loginCount (GoGoGate2.getStatus env g).2 = 0) ∧
    (∀ (env : Transport) (g : GoGoGate2) (l : List ℚ),
      GoGoGate2.doGetTemp (env.tempResp 0) = some l →
      GoGoGate2.getTemp env g = (some (some l, g), [Event.tempAttempt]) ∧
      loginCount (GoGoGate2.getTemp env g).2 = 0) ∧
    (∀ (env : Transport) (g : GoGoGate2) (d : Nat),
      GoGoGate2.doToggleDoor (env.toggleResp 0 d) = true →
      GoGoGate2.toggleDoor env g d = (some (true, g), [Event.toggleAttempt d]) ∧
      loginCount (GoGoGate2.toggleDoor env g d).2 = 0) := by
  refine ⟨?_, ?_, ?_⟩
  · intro env g j h
    simp [GoGoGate2.getStatus, h, loginCount]
  · intro env g l h
    simp [GoGoGate2.getTemp, h, loginCount]
  · intro env g d h
    simp [GoGoGate2.toggleDoor, h, loginCount]

/-- C7 witness: on a transport whose status endpoint answers a valid
door-status body, `getStatus` returns it directly and performs no
login. -/
theorem C7_success_skips_login_witness :
    GoGoGate2.getStatus envOK g0 =
      (some (some (Json.arr [Json.str "0", Json.str "2", Json.str "0"]), g0),
        [Event.statusAttempt]) ∧
    loginCount (GoGoGate2.getStatus envOK g0).2 = 0 :=
  C7_success_skips_login.1 envOK g0
    (Json.arr [Json.str "0", Json.str "2", Json.str "0"]) rfl

/-- C6: for each public operation, if the first attempt fails and the
in-between `_login` call also fails (returns `False`), the operation
returns the absent/false result with no further action or login
attempts; moreover no invocation of a public operation ever performs
more than one login and more than two action attempts (one retry). -/
theorem C6_failed_login_stops_retry :
    (∀ (env : Transport) (g g' : GoGoGate2),
      GoGoGate2.doGetStatus (env.statusResp 0) = none →
      g.login env.loginResp = some (false, g') →
      GoGoGate2.getStatus env g =
        (some (none, g'), [Event.statusAttempt, Event.login])) ∧
    (∀ (env : Transport) (g g' : GoGoGate2),
      GoGoGate2.doGetTemp (env.tempResp 0) = none →
      g.login env.loginResp = some (false, g') →
      GoGoGate2.getTemp env g =
        (some (none, g'), [Event.tempAttempt, Event.login])) ∧
    (∀ (env : Transport) (g g' : GoGoGate2) (d : Nat),
      GoGoGate2.doToggleDoor (env.toggleResp 0 d) = false →
      g.login env.loginResp = some (false, g') →
      GoGoGate2.toggleDoor env g d =
        (some (false, g'), [Event.toggleAttempt d, Event.login])) ∧
    (∀ (env : Transport) (g : GoGoGate2) (d : Nat),
      loginCount (GoGoGate2.getStatus env g).2 ≤ 1 ∧
      attemptCount (GoGoGate2.getStatus env g).2 ≤ 2 ∧
      loginCount (GoGoGate2.getTemp env g).2 ≤ 1 ∧
      attemptCount (GoGoGate2.getTemp env g).2 ≤ 2 ∧
      loginCount (GoGoGate2.toggleDoor env g d).2 ≤ 1 ∧
      attemptCount (GoGoGate2.toggleDoor env g d).2 ≤ 2) := by
  refine ⟨?_, ?_, ?_, ?_⟩
  · intro env g g' h1 h2
    simp [GoGoGate2.getStatus, h1, h2]
  · intro env g g' h1 h2
    simp [GoGoGate2.getTemp, h1, h2]
  · intro env g g' d h1 h2
    simp [GoGoGate2.toggleDoor, h1, h2]
  · intro env g d
    refine ⟨?_, ?_, ?_, ?_, ?_, ?_⟩
    all_goals
      first
      | (cases h1 : GoGoGate2.doGetStatus (env.statusResp 0) with
         | some j => simp [GoGoGate2.getStatus, h1, loginCount, attemptCount]
         | none =>
           cases h2 : g.login env.loginResp with
           | none => simp [GoGoGate2.getStatus, h1, h2, loginCount, attemptCount]
           | some p =>
             obtain ⟨b, g'⟩ := p
             cases b <;>
               simp [GoGoGate2.getStatus, h1, h2, loginCount, attemptCount])
      | (cases h1 : GoGoGate2.doGetTemp (env.tempResp 0) with
         | some l => simp [GoGoGate2.getTemp, h1, loginCount, attemptCount]
         | none =>
           cases h2 : g.login env.loginResp with
           | none => simp [GoGoGate2.getTemp, h1, h2, loginCount, attemptCount]
           | some p =>
             obtain ⟨b, g'⟩ := p
             cases b <;>
               simp [GoGoGate2.getTemp, h1, h2, loginCount, attemptCount])
      | (cases h1 : GoGoGate2.doToggleDoor (env.toggleResp 0 d) with
         | true => simp [GoGoGate2.toggleDoor, h1, loginCount, attemptCount]
         | false =>
           cases h2 : g.login env.loginResp with
           | none => simp [GoGoGate2.toggleDoor, h1, h2, loginCount, attemptCount]
           | some p =>
             obtain ⟨b, g'⟩ := p
             cases b <;>
               simp [GoGoGate2.toggleDoor, h1, h2, loginCount, attemptCount])

/-- C6 witness: on the all-failing transport, `getStatus` stops after
one attempt and one failed login, returning the absent result. -/
theorem C6_failed_login_stops_retry_witness :
    GoGoGate2.getStatus envA g0 =
      (some (none, g0), [Event.statusAttempt, Event.login]) :=
  C6_failed_login_stops_retry.1 envA g0 g0 rfl rfl

/-- C1 counterexample: on a transport where the first status attempt
fails and the login also fails, exactly one `_login` call is made but
the action is NOT retried — the trace holds one attempt, not the two
the claim demands regardless of login outcome. -/
theorem C1_counterexample :
    GoGoGate2.doGetStatus (envA.statusResp 0) = none ∧
    loginCount (GoGoGate2.getStatus envA g0).2 = 1 ∧
    attemptCount (GoGoGate2.getStatus envA g0).2 ≠ 2 :=
  ⟨rfl, rfl, by decide⟩

/-- C1 (amended): for each public operation, if the first attempt of the
underlying action fails and `_login` returns normally, exactly one
`_login` call is made, and the action is retried exactly once more when
that login succeeded and not retried at all when it failed. -/
theorem C1_amended_retry_policy :
    (∀ (env : Transport) (g : GoGoGate2) (b : Bool) (g' : GoGoGate2),
      GoGoGate2.doGetStatus (env.statusResp 0) = none →
      g.login env.loginResp = some (b, g') →
      loginCount (GoGoGate2.getStatus env g).2 = 1 ∧
      attemptCount (GoGoGate2.getStatus env g).2 = if b then 2 else 1) ∧
    (∀ (env : Transport) (g : GoGoGate2) (b : Bool) (g' : GoGoGate2),
      GoGoGate2.doGetTemp (env.tempResp 0) = none →
      g.login env.loginResp = some (b, g') →
      loginCount (GoGoGate2.getTemp env g).2 = 1 ∧
      attemptCount (GoGoGate2.getTemp env g).2 = if b then 2 else 1) ∧
    (∀ (env : Transport) (g : GoGoGate2) (d : Nat) (b : Bool) (g' : GoGoGate2),
      GoGoGate2.doToggleDoor (env.toggleResp 0 d) = false →
      g.login env.loginResp = some (b, g') →
      loginCount (GoGoGate2.toggleDoor env g d).2 = 1 ∧
      attemptCount (GoGoGate2.toggleDoor env g d).2 = if b then 2 else 1) := by
  refine ⟨?_, ?_, ?_⟩
  · intro env g b g' h1 h2
    cases b <;> simp [GoGoGate2.getStatus, h1, h2, loginCount, attemptCount]
  · intro env g b g' h1 h2
    cases b <;> simp [GoGoGate2.getTemp, h1, h2, loginCount, attemptCount]
  · intro env g d b g' h1 h2
    cases b <;> simp [GoGoGate2.toggleDoor, h1, h2, loginCount, attemptCount]

/-- C1 (amended) witness: on the all-failing transport the status
operation makes exactly one login call and one (unretried) attempt. -/
theorem C1_amended_retry_policy_witness :
    loginCount (GoGoGate2.getStatus envA g0).2 = 1 ∧
    attemptCount (GoGoGate2.getStatus envA g0).2 = 1 :=
  C1_amended_retry_policy.1 envA g0 false g0 rfl rfl

/-- C2 counterexample: the door-1 temperature request answers a non-200
status, yet `_doGetTemp` does not abort: it returns the partial vector
collected from doors 2 and 3, and `getTemp` passes it through as a
present result. -/
theorem C2_counterexample :
    (envB.tempResp 0 1).status_code ≠ 200 ∧
    GoGoGate2.doGetTemp (envB.tempResp 0) = some [41, 41] ∧
    (GoGoGate2.getTemp envB g0).1 = some (some [41, 41], g0) := by
  have hT : GoGoGate2.doGetTemp (envB.tempResp 0) = some [41, 41] := by
    show some ([] ++ [(9 : ℚ) / 5 * ((5000 : ℕ) / 1000) + 32]
        ++ [(9 : ℚ) / 5 * ((5000 : ℕ) / 1000) + 32]) = some [41, 41]
    norm_num
  refine ⟨by decide, hT, ?_⟩
  simp [GoGoGate2.getTemp, hT]

/-- C2 (amended): if any of the three per-door requests yields an HTTP
200 response with a non-empty body on which the loop body raises — the
body is unparseable, or its decoded payload fails the element access
`results[0]`, or the accessed element fails the `float` conversion —
the whole fetch aborts with the absent value (the exception path);
non-200 or empty per-door responses do not abort — they are skipped
(see the C9 development). -/
theorem C2_amended_exception_aborts :
    (∀ (resp : Nat → HttpResponse) (d : Nat), d = 1 ∨ d = 2 ∨ d = 3 →
      (resp d).status_code = 200 → 0 < (resp d).text.length →
      (resp d).jsonOf = none →
      GoGoGate2.doGetTemp resp = none) ∧
    (∀ (resp : Nat → HttpResponse) (d : Nat) (j : Json), d = 1 ∨ d = 2 ∨ d = 3 →
      (resp d).status_code = 200 → 0 < (resp d).text.length →
      (resp d).jsonOf = some j → j ≠ Json.null → Json.item0 j = none →
      GoGoGate2.doGetTemp resp = none) ∧
    (∀ (resp : Nat → HttpResponse) (d : Nat) (j v : Json), d = 1 ∨ d = 2 ∨ d = 3 →
      (resp d).status_code = 200 → 0 < (resp d).text.length →
      (resp d).jsonOf = some j → j ≠ Json.null → Json.item0 j = some v →
      v.eqStr "-1000000" = false → pyFloat v = none →
      GoGoGate2.doGetTemp resp = none) := by
  refine ⟨?_, ?_, ?_⟩
  · intro resp d hd h200 hlen hjson
    refine tempStep_none_aborts resp d hd ?_
    unfold GoGoGate2.tempStep
    rw [if_pos ⟨h200, hlen⟩, hjson]
  · intro resp d j hd h200 hlen hjson hnull hitem
    refine tempStep_none_aborts resp d hd ?_
    unfold GoGoGate2.tempStep
    rw [if_pos ⟨h200, hlen⟩, hjson]
    cases j with
    | null => exact absurd rfl hnull
    | bool b => simp [hitem]
    | num q => simp [hitem]
    | str s => simp [hitem]
    | arr es => simp [hitem]
    | obj fs => simp [hitem]
  · intro resp d j v hd h200 hlen hjson hnull hitem hsent hfloat
    refine tempStep_none_aborts resp d hd ?_
    unfold GoGoGate2.tempStep
    rw [if_pos ⟨h200, hlen⟩, hjson]
    cases j with
    | null => exact absurd rfl hnull
    | bool b => simp [Json.item0] at hitem
    | num q => simp [Json.item0] at hitem
    | obj fs => simp [Json.item0] at hitem
    | str s => simp [hitem, hsent, hfloat]
    | arr es => simp [hitem, hsent, hfloat]

/-- C2 (amended) witness: a 200 response whose body is not JSON aborts
the whole temperature fetch, and so does one whose body is the empty
JSON array (the element access fails). -/
theorem C2_amended_exception_aborts_witness :
    GoGoGate2.doGetTemp (envD.tempResp 0) = none ∧
    GoGoGate2.doGetTemp (envE.tempResp 0) = none :=
  ⟨C2_amended_exception_aborts.1 (envD.tempResp 0) 1 (Or.inl rfl) rfl
      (by decide) rfl,
    C2_amended_exception_aborts.2.1 (envE.tempResp 0) 1 (Json.arr [])
      (Or.inl rfl) rfl (by decide) rfl (fun h => Json.noConfusion h) rfl⟩

/-- C9: a door whose temperature response has a non-200 status or an
empty body is silently skipped — nothing is appended for it — so the
fetch can return fewer than three values; when all three doors fail
this way the fetch returns the empty list, which `getTemp` treats as a
present result, returning it without any login or retry. -/
theorem C9_transport_failure_skipped :
    (∀ r : HttpResponse, ¬ (r.status_code = 200 ∧ 0 < r.text.length) →
      GoGoGate2.tempStep r = some none) ∧
    (∀ resp : Nat → HttpResponse,
      (∀ d, 1 ≤ d → d ≤ 3 →
        ¬ ((resp d).status_code = 200 ∧ 0 < (resp d).text.length)) →
      GoGoGate2.doGetTemp resp = some []) ∧
    (∀ (env : Transport) (g : GoGoGate2),
      (∀ d, 1 ≤ d → d ≤ 3 →
        ¬ ((env.tempResp 0 d).status_code = 200 ∧
           0 < (env.tempResp 0 d).text.length)) →
      GoGoGate2.getTemp env g = (some (some [], g), [Event.tempAttempt])) := by
  have hstep : ∀ r : HttpResponse,
      ¬ (r.status_code = 200 ∧ 0 < r.text.length) →
      GoGoGate2.tempStep r = some none := by
    intro r h
    unfold GoGoGate2.tempStep
    rw [if_neg h]
  have hloop : ∀ resp : Nat → HttpResponse,
      (∀ d, 1 ≤ d → d ≤ 3 →
        ¬ ((resp d).status_code = 200 ∧ 0 < (resp d).text.length)) →
      GoGoGate2.doGetTemp resp = some [] := by
    intro resp h
    have h1 := hstep _ (h 1 (by omega) (by omega))
    have h2 := hstep _ (h 2 (by omega) (by omega))
    have h3 := hstep _ (h 3 (by omega) (by omega))
    simp [GoGoGate2.doGetTemp, h1, h2, h3]
  refine ⟨hstep, hloop, ?_⟩
  intro env g h
  simp [GoGoGate2.getTemp, hloop _ h]

/-- C9 witness: on the all-failing transport, `getTemp` returns the
present empty vector after a single attempt and no login. -/
theorem C9_transport_failure_skipped_witness :
    GoGoGate2.getTemp envA g0 = (some (some [], g0), [Event.tempAttempt]) :=
  C9_transport_failure_skipped.2.2 envA g0 (by intro d _ _; simp [envA, noResp])

/-- C4 counterexample: `getTemp` yields a present result holding only
two values (doors 2 and 3) when the door-1 request fails at the
transport level, contradicting "exactly 3 values". -/
theorem C4_counterexample :
    (GoGoGate2.getTemp envB g0).1 = some (some [41, 41], g0) ∧
    ([(41 : ℚ), 41]).length ≠ 3 := by
  have hT : GoGoGate2.doGetTemp (envB.tempResp 0) = some [41, 41] := by
    show some ([] ++ [(9 : ℚ) / 5 * ((5000 : ℕ) / 1000) + 32]
        ++ [(9 : ℚ) / 5 * ((5000 : ℕ) / 1000) + 32]) = some [41, 41]
    norm_num
  exact ⟨by simp [GoGoGate2.getTemp, hT], by decide⟩

/-- C4 (amended): every non-absent result of `getTemp` is a vector of at
most 3 values — one per door whose response was appended; doors skipped
at the transport level make it shorter. -/
theorem C4_amended_at_most_three :
    ∀ (env : Transport) (g g' : GoGoGate2) (l : List ℚ),
      (GoGoGate2.getTemp env g).1 = some (some l, g') → l.length ≤ 3 := by
  intro env g g' l h
  cases h1 : GoGoGate2.doGetTemp (env.tempResp 0) with
  | some l0 =>
    simp [GoGoGate2.getTemp, h1] at h
    exact h.1 ▸ doGetTemp_length_le (env.tempResp 0) l0 h1
  | none =>
    cases h2 : g.login env.loginResp with
    | none => simp [GoGoGate2.getTemp, h1, h2] at h
    | some p =>
      obtain ⟨b, g2⟩ := p
      cases b with
      | false => simp [GoGoGate2.getTemp, h1, h2] at h
      | true =>
        simp [GoGoGate2.getTemp, h1, h2] at h
        exact doGetTemp_length_le (env.tempResp 1) l h.1

/-- C4 (amended) witness: the two-element result observed on `envB` is
within the three-value bound. -/
theorem C4_amended_at_most_three_witness :
    ([(41 : ℚ), 41]).length ≤ 3 := by
  have hT : GoGoGate2.doGetTemp (envB.tempResp 0) = some [41, 41] := by
    show some ([] ++ [(9 : ℚ) / 5 * ((5000 : ℕ) / 1000) + 32]
        ++ [(9 : ℚ) / 5 * ((5000 : ℕ) / 1000) + 32]) = some [41, 41]
    norm_num
  exact C4_amended_at_most_three envB g0 g0 [41, 41]
    (by simp [GoGoGate2.getTemp, hT])

/-- C3: for a per-door payload whose first element is the sentinel
string `"-1000000"`, the appended value is `0`; for any other first
element that is a decimal string of value `q`, the appended value is
`(q / 1000) * 9/5 + 32`; in particular raw `"0"` yields `32` and raw
`"100000"` yields `212`. -/
theorem C3_temperature_conversion :
    (∀ (r : HttpResponse) (rest : List Json),
      r.status_code = 200 → 0 < r.text.length →
      r.jsonOf = some (Json.arr (Json.str "-1000000" :: rest)) →
      GoGoGate2.tempStep r = some (some 0)) ∧
    (∀ (r : HttpResponse) (rest : List Json) (s : String) (q : ℚ),
      r.status_code = 200 → 0 < r.text.length →
      r.jsonOf = some (Json.arr (Json.str s :: rest)) →
      s ≠ "-1000000" → parseDecimal s = some q →
      GoGoGate2.tempStep r = some (some (q / 1000 * (9 / 5) + 32))) ∧
    (∀ (r : HttpResponse) (rest : List Json),
      r.status_code = 200 → 0 < r.text.length →
      r.jsonOf = some (Json.arr (Json.str "0" :: rest)) →
      GoGoGate2.tempStep r = some (some 32)) ∧
    (∀ (r : HttpResponse) (rest : List Json),
      r.status_code = 200 → 0 < r.text.length →
      r.jsonOf = some (Json.arr (Json.str "100000" :: rest)) →
      GoGoGate2.tempStep r = some (some 212)) := by
  have hsent : ∀ (r : HttpResponse) (rest : List Json),
      r.status_code = 200 → 0 < r.text.length →
      r.jsonOf = some (Json.arr (Json.str "-1000000" :: rest)) →
      GoGoGate2.tempStep r = some (some 0) := by
    intro r rest h200 hlen hjson
    unfold GoGoGate2.tempStep
    rw [if_pos ⟨h200, hlen⟩, hjson]
    simp [Json.item0, Json.eqStr]
  have hgen : ∀ (r : HttpResponse) (rest : List Json) (s : String) (q : ℚ),
      r.status_code = 200 → 0 < r.text.length →
      r.jsonOf = some (Json.arr (Json.str s :: rest)) →
      s ≠ "-1000000" → parseDecimal s = some q →
      GoGoGate2.tempStep r = some (some (q / 1000 * (9 / 5) + 32)) := by
    intro r rest s q h200 hlen hjson hs hq
    unfold GoGoGate2.tempStep
    rw [if_pos ⟨h200, hlen⟩, hjson]
    simp [Json.item0, Json.eqStr, pyFloat, hq, hs]
    ring
  refine ⟨hsent, hgen, ?_, ?_⟩
  · intro r rest h200 hlen hjson
    rw [hgen r rest "0" 0 h200 hlen hjson (by decide) rfl]
    norm_num
  · intro r rest h200 hlen hjson
    rw [hgen r rest "100000" 100000 h200 hlen hjson (by decide) rfl]
    norm_num

/-- C3 witness: the sentinel payload appends `0`, and a concrete valid
payload converts by the formula. -/
theorem C3_temperature_conversion_witness :
    GoGoGate2.tempStep sentinelResp = some (some 0) :=
  C3_temperature_conversion.1 sentinelResp [Json.str "0"] rfl (by decide) rfl

/-- C5 counterexample: against a toggle endpoint answering HTTP 200 with
body `FAIL`, `toggleDoor 2` does return false, but only after
performing the login sequence — one `_login` call, not the zero the
claim requires. -/
theorem C5_counterexample :
    (envC.toggleResp 0 2).status_code = 200 ∧
    (envC.toggleResp 0 2).text = "FAIL" ∧
    (GoGoGate2.toggleDoor envC g0 2).1 = some (false, g0) ∧
    loginCount (GoGoGate2.toggleDoor envC g0 2).2 = 1 :=
  ⟨rfl, rfl, rfl, rfl⟩

/-- C5 (amended): `toggleDoor 2` returns true immediately (no login)
when the toggle request yields HTTP 200 with body exactly `OK`; when
the body is `FAIL` the attempt counts as a failure, so the
login-and-retry sequence IS performed: if that login fails the result
is false, and if it succeeds the retried attempt's outcome is
returned. -/
theorem C5_amended_fail_triggers_retry :
    (∀ (env : Transport) (g : GoGoGate2),
      (env.toggleResp 0 2).status_code = 200 → (env.toggleResp 0 2).text = "OK" →
      GoGoGate2.toggleDoor env g 2 = (some (true, g), [Event.toggleAttempt 2])) ∧
    (∀ (env : Transport) (g g' : GoGoGate2),
      (env.toggleResp 0 2).text = "FAIL" →
      g.login env.loginResp = some (false, g') →
      GoGoGate2.toggleDoor env g 2 =
        (some (false, g'), [Event.toggleAttempt 2, Event.login])) ∧
    (∀ (env : Transport) (g g' : GoGoGate2),
      (env.toggleResp 0 2).text = "FAIL" →
      g.login env.loginResp = some (true, g') →
      GoGoGate2.toggleDoor env g 2 =
        (some (GoGoGate2.doToggleDoor (env.toggleResp 1 2), g'),
          [Event.toggleAttempt 2, Event.login, Event.toggleAttempt 2])) := by
  refine ⟨?_, ?_, ?_⟩
  · intro env g h1 h2
    have hT : GoGoGate2.doToggleDoor (env.toggleResp 0 2) = true := by
      simp [GoGoGate2.doToggleDoor, h1, h2]
    simp [GoGoGate2.toggleDoor, hT]
  · intro env g g' h1 h2
    have hT : GoGoGate2.doToggleDoor (env.toggleResp 0 2) = false := by
      simp [GoGoGate2.doToggleDoor, h1]
    simp [GoGoGate2.toggleDoor, hT, h2]
  · intro env g g' h1 h2
    have hT : GoGoGate2.doToggleDoor (env.toggleResp 0 2) = false := by
      simp [GoGoGate2.doToggleDoor, h1]
    simp [GoGoGate2.toggleDoor, hT, h2]

/-- C5 (amended) witness: on the `FAIL` fixture with a failing login,
`toggleDoor 2` returns false after exactly the attempt-login trace. -/
theorem C5_amended_fail_triggers_retry_witness :
    GoGoGate2.toggleDoor envC g0 2 =
      (some (false, g0), [Event.toggleAttempt 2, Event.login]) :=
  C5_amended_fail_triggers_retry.2.1 envC g0 g0 rfl rfl

/-- C8: the session token is mutated only by `_login` and only on
success: a login response without the success signal (non-200 status or
missing logout fragment) returns `False` and leaves the client — hence
`session_id` — unchanged, and every public operation's resulting client
is either the unchanged input client or the client produced by a
successful `_login`. -/
theorem C8_token_mutated_only_by_login :
    (∀ (g : GoGoGate2) (r : HttpResponse),
      ¬ (r.status_code = 200 ∧ occursIn logoutFragment.data r.text.data = true) →
      g.login r = some (false, g)) ∧
    (∀ (env : Transport) (g : GoGoGate2) (x : Option Json) (g' : GoGoGate2),
      (GoGoGate2.getStatus env g).1 = some (x, g') →
      g' = g ∨ g.login env.loginResp = some (true, g')) ∧
    (∀ (env : Transport) (g : GoGoGate2) (x : Option (List ℚ)) (g' : GoGoGate2),
      (GoGoGate2.getTemp env g).1 = some (x, g') →
      g' = g ∨ g.login env.loginResp = some (true, g')) ∧
    (∀ (env : Transport) (g : GoGoGate2) (d : Nat) (x : Bool) (g' : GoGoGate2),
      (GoGoGate2.toggleDoor env g d).1 = some (x, g') →
      g' = g ∨ g.login env.loginResp = some (true, g')) := by
  refine ⟨?_, ?_, ?_, ?_⟩
  · intro g r h
    unfold GoGoGate2.login
    rw [if_neg h]
  · intro env g x g' h
    cases h1 : GoGoGate2.doGetStatus (env.statusResp 0) with
    | some j =>
      simp [GoGoGate2.getStatus, h1] at h
      exact Or.inl h.2.symm
    | none =>
      cases h2 : g.login env.loginResp with
      | none => simp [GoGoGate2.getStatus, h1, h2] at h
      | some p =>
        obtain ⟨b, g2⟩ := p
        cases b with
        | true =>
          simp [GoGoGate2.getStatus, h1, h2] at h
          exact Or.inr (by rw [h.2])
        | false =>
          simp [GoGoGate2.getStatus, h1, h2] at h
          exact Or.inl (h.2 ▸ login_false_unchanged g g2 env.loginResp h2)
  · intro env g x g' h
    cases h1 : GoGoGate2.doGetTemp (env.tempResp 0) with
    | some l =>
      simp [GoGoGate2.getTemp, h1] at h
      exact Or.inl h.2.symm
    | none =>
      cases h2 : g.login env.loginResp with
      | none => simp [GoGoGate2.getTemp, h1, h2] at h
      | some p =>
        obtain ⟨b, g2⟩ := p
        cases b with
        | true =>
          simp [GoGoGate2.getTemp, h1, h2] at h
          exact Or.inr (by rw [h.2])
        | false =>
          simp [GoGoGate2.getTemp, h1, h2] at h
          exact Or.inl (h.2 ▸ login_false_unchanged g g2 env.loginResp h2)
  · intro env g d x g' h
    cases h1 : GoGoGate2.doToggleDoor (env.toggleResp 0 d) with
    | true =>
      simp [GoGoGate2.toggleDoor, h1] at h
      exact Or.inl h.2.symm
    | false =>
      cases h2 : g.login env.loginResp with
      | none => simp [GoGoGate2.toggleDoor, h1, h2] at h
      | some p =>
        obtain ⟨b, g2⟩ := p
        cases b with
        | true =>
          simp [GoGoGate2.toggleDoor, h1, h2] at h
          exact Or.inr (by rw [h.2])
        | false =>
          simp [GoGoGate2.toggleDoor, h1, h2] at h
          exact Or.inl (h.2 ▸ login_false_unchanged g g2 env.loginResp h2)

/-- C8 witness: a failed login leaves the freshly constructed client
unchanged. -/
theorem C8_token_mutated_only_by_login_witness :
    GoGoGate2.login g0 noResp = some (false, g0) :=
  C8_token_mutated_only_by_login.1 g0 noResp (by decide)

/-- C10: a login response with HTTP 200 and the logout-button fragment
but no `PHPSESSID` cookie makes `_login` raise (KeyError) instead of
returning a boolean — modelled as the exceptional `none` result. -/
theorem C10_missing_cookie_raises :
    ∀ (g : GoGoGate2) (r : HttpResponse),
      r.status_code = 200 →
      occursIn logoutFragment.data r.text.data = true →
      lookupCookie r.cookies "PHPSESSID" = none →
      GoGoGate2.login g r = none := by
  intro g r h200 hfrag hcookie
  unfold GoGoGate2.login
  rw [if_pos ⟨h200, hfrag⟩, hcookie]

/-- C10 witness: a 200 response whose body is exactly the logout
fragment but with an empty cookie jar makes `_login` raise. -/
theorem C10_missing_cookie_raises_witness :
    GoGoGate2.login g0 fragNoCookieResp = none :=
  C10_missing_cookie_raises g0 fragNoCookieResp rfl (by decide) rfl
